import Mathlib

/-!
Shallow embedding of `src/extract_sprites.py`, a utility that slices
fixed-layout 160x160 sprite-sheet images into twenty 16x16 face sprites and
twenty 32x32 portraits per sheet, naming the outputs either from a sidecar
text file of character names or from a positional fallback scheme.

Modelling conventions:
* A decoded raster image (`PIL.Image`) is a `PyImage`: a width, a height and
  a total pixel function.  `PyImage.crop` mirrors `Image.crop((l, t, r, b))`:
  the result has size `(r - l, b - t)` and pixel `(i, j)` equal to pixel
  `(l + i, t + j)` of the source.
* Python strings are Lean `String`s; the string methods the script uses
  (`replace`, `strip`, `startswith`, `endswith`, `isalnum`,
  `os.path.splitext`, `os.path.basename`) are re-implemented over the
  character list `String.data` so that they evaluate on concrete inputs.
* The filesystem is abstracted into a `Cwd` record: the directory listing,
  the decoded image behind each path, and for each path the lines of the
  text file there (`none` when the file does not exist).
* Console output is a list of `Msg` values, one constructor per distinct
  `print` site that the claims mention.
* Saving a file is recorded as a `(filename, image)` pair in a trace list, in
  program order; the script never deletes or renames files.
* The external `optipng` subprocess is abstracted by its exit code; with
  `check=True`, `subprocess.run` raises (`Except.error`) exactly on a
  non-zero exit, and a successful run rewrites the file in place, leaving
  the set of files on disk unchanged.
-/

/-- An in-memory decoded raster image (the model of a `PIL.Image`). -/
structure PyImage where
  width : Nat
  height : Nat
  px : Nat → Nat → Nat
deriving Inhabited

/-- `Image.crop((l, t, r, b))`: size `(r - l, b - t)`, pixel `(i, j)` taken
from `(l + i, t + j)` of the source image. -/
def PyImage.crop (img : PyImage) (l t r b : Nat) : PyImage :=
  { width := r - l, height := b - t, px := fun i j => img.px (l + i) (t + j) }

/-- One constructor per distinct console message the script can print. -/
inductive Msg where
  | warnDimensions (w h : Nat)
  | warnNameCount (found : Nat)
  | loadedNames (n : Nat)
  | noNamesFile
  | savedFile (name : String)
  | noSheetsFound
  | usage
  | optipngDetected
  | optipngMissing
  | foundSheets (n : Nat)
  | allDone
deriving DecidableEq

/-- Python `c.isalnum()` (restricted to the ASCII range, which is all the
script's documented inputs use). -/
def py_isalnum (c : Char) : Bool := c.isAlphanum

/-- Python `line.strip()`: drop leading and trailing whitespace. -/
def py_strip (s : String) : String :=
  String.mk (((s.data.dropWhile Char.isWhitespace).reverse.dropWhile
    Char.isWhitespace).reverse)

/-- Does the first character list start with the second one? -/
def chars_start_with : List Char → List Char → Bool
  | _, [] => true
  | [], _ :: _ => false
  | c :: cs, p :: ps => c = p && chars_start_with cs ps

/-- Python `s.startswith(pat)`. -/
def str_starts_with (s pat : String) : Bool :=
  chars_start_with s.data pat.data

/-- Python `s.endswith(pat)`. -/
def str_ends_with (s pat : String) : Bool :=
  chars_start_with s.data.reverse pat.data.reverse

/-- Index of the last `'.'` in a character list, if any. -/
def last_dot_aux : List Char → Nat → Option Nat → Option Nat
  | [], _, acc => acc
  | c :: cs, i, acc => last_dot_aux cs (i + 1) (if c = '.' then some i else acc)

/-- Python `os.path.basename(p)`: everything after the last `'/'`. -/
def basename (p : String) : String :=
  String.mk ((p.data.reverse.takeWhile (fun c => c ≠ '/')).reverse)

/-- Python `os.path.splitext(p)[0]`: cut at the last dot of the basename,
except when every character before that dot (within the basename) is itself
a dot, in which case nothing is cut. -/
def splitext_base (p : String) : String :=
  let base := (basename p).data
  let dirlen := p.data.length - base.length
  match last_dot_aux base 0 none with
  | none => p
  | some i =>
    if (base.take i).all (fun c => c = '.') then p
    else String.mk (p.data.take (dirlen + i))

/-- Python `c == ' '` branch of `name.replace(' ', '_')`, one character at a
time. -/
def space_to_underscore (c : Char) : Char :=
  if c = ' ' then '_' else c

/-- The generator condition `c.isalnum() or c in ('_', '-')`. -/
def keep_char (c : Char) : Bool :=
  py_isalnum c || c = '_' || c = '-'

/-- `sanitize_filename` from the script: replace spaces with underscores,
then keep only alphanumeric characters, underscores and hyphens. -/
def sanitize_filename (name : String) : String :=
  let safe_name := String.mk (name.data.map space_to_underscore)
  String.mk (safe_name.data.filter keep_char)

/-- The sanitizer as the specification words it, written independently for
comparison with `sanitize_filename`: first replace each space with an
underscore, then drop every character that is not alphanumeric, an
underscore, or a hyphen. -/
def spec_sanitize (name : String) : String :=
  String.mk ((name.data.map space_to_underscore).filter keep_char)

/-- `load_character_names`, with the filesystem abstracted: `txt_lines` is
`some` of the sidecar file's lines when `{base}.txt` exists and `none` when
it does not.  Returns the parsed name list together with the warning
messages printed (`Warning: Expected 20 names ..., found {n}` when the count
differs from 20). -/
def load_character_names (txt_lines : Option (List String)) :
    Option (List String) × List Msg :=
  match txt_lines with
  | none => (none, [])
  | some ls =>
    let names := (ls.filter (fun line => py_strip line ≠ "")).map py_strip
    (some names,
      if names.length ≠ 20 then [Msg.warnNameCount names.length] else [])

/-- The Python guard `character_names and character_index < len(character_names)`:
false for `None`, false for an empty list, otherwise the index bound. -/
def names_has (character_names : Option (List String)) (i : Nat) : Bool :=
  match character_names with
  | none => false
  | some ns => !ns.isEmpty && decide (i < ns.length)

/-- `character_names[character_index]` (only ever used under `names_has`). -/
def name_at (character_names : Option (List String)) (i : Nat) : String :=
  (character_names.getD []).getD i ""

/-- The filename chosen for one face sprite: `{sanitized}face.png` when a
name is available for this character index, else
`{base_name}_row{row}_sprite{sprite_num}.png`. -/
def face_name (base_name : String) (character_names : Option (List String))
    (character_index : Nat) (row : Nat) (sprite_num : String) : String :=
  if names_has character_names character_index then
    sanitize_filename (name_at character_names character_index) ++ "face.png"
  else
    base_name ++ "_row" ++ toString row ++ "_sprite" ++ sprite_num ++ ".png"

/-- The filename chosen for one portrait: `{sanitized}.png` when a name is
available, else `{base_name}_row{row}_sprite{sprite_index}_portrait.png`. -/
def portrait_name (base_name : String) (character_names : Option (List String))
    (character_index : Nat) (row : Nat) (sprite_index : Nat) : String :=
  if names_has character_names character_index then
    sanitize_filename (name_at character_names character_index) ++ ".png"
  else
    base_name ++ "_row" ++ toString row ++ "_sprite" ++ toString sprite_index
      ++ "_portrait.png"

/-- The `sprite_positions` table: offset within the 32x32 cell and the
sprite number string, in raster order. -/
def sprite_positions : List (Nat × Nat × String) :=
  [(0, 0, "1"), (16, 0, "2"), (0, 16, "3"), (16, 16, "4")]

/-- One iteration of the inner face-sprite loop: crop the 16x16 sprite at
`(base_x + offset_x, base_y + offset_y)`, pick its filename, append the save
to the trace and advance `character_index`. -/
def face_step (sheet : PyImage) (base_name : String)
    (character_names : Option (List String)) (row : Nat)
    (st : Nat × List (String × PyImage)) (pos : Nat × Nat × String) :
    Nat × List (String × PyImage) :=
  let x := 0 + pos.1
  let y := row * 32 + pos.2.1
  let sprite := sheet.crop x y (x + 16) (y + 16)
  let sprite_name := face_name base_name character_names st.1 row pos.2.2
  (st.1 + 1, st.2 ++ [(sprite_name, sprite)])

/-- The face-sprite double loop (`for row in range(5): for ... in
sprite_positions`), threading `character_index` from 0 and returning the
save trace in program order. -/
def face_pass (sheet : PyImage) (base_name : String)
    (character_names : Option (List String)) : List (String × PyImage) :=
  (([0, 1, 2, 3, 4] : List Nat).foldl
    (fun st row =>
      sprite_positions.foldl (face_step sheet base_name character_names row) st)
    (0, [])).2

/-- One iteration of the inner portrait loop: crop the 32x32 cell at
`(col * 32, row * 32)`, pick its filename (`sprite_index = (col - 1) + 1`),
append the save and advance `character_index`. -/
def portrait_step (sheet : PyImage) (base_name : String)
    (character_names : Option (List String)) (row : Nat)
    (st : Nat × List (String × PyImage)) (col : Nat) :
    Nat × List (String × PyImage) :=
  let x := col * 32
  let y := row * 32
  let portrait := sheet.crop x y (x + 32) (y + 32)
  let pname := portrait_name base_name character_names st.1 row ((col - 1) + 1)
  (st.1 + 1, st.2 ++ [(pname, portrait)])

/-- The portrait double loop (`for row in range(5): for col in range(1, 5)`),
with `character_index` restarted at 0. -/
def portrait_pass (sheet : PyImage) (base_name : String)
    (character_names : Option (List String)) : List (String × PyImage) :=
  (([0, 1, 2, 3, 4] : List Nat).foldl
    (fun st row =>
      ([1, 2, 3, 4] : List Nat).foldl
        (portrait_step sheet base_name character_names row) st)
    (0, [])).2

/-- The working directory: its listing, the decoded image behind each path,
and the lines of the text file at each path (`none` when absent). -/
structure Cwd where
  listing : List String
  image : String → PyImage
  txt : String → Option (List String)

/-- Everything observable that one `extract_sprites_from_sheet` call does:
messages printed, whether `os.makedirs(output_dir)` was reached, the save
trace, and the list handed to the optipng batch. -/
structure ExtractResult where
  msgs : List Msg
  madeOutputDir : Bool
  saves : List (String × PyImage)
  files_to_optimize : List String
deriving Inhabited

/-- `extract_sprites_from_sheet(sheet_path, output_dir, use_optipng)` over
the abstract working directory `cwd`. -/
def extract_sprites_from_sheet (cwd : Cwd) (sheet_path output_dir : String)
    (use_optipng : Bool) : ExtractResult :=
  let sheet := cwd.image sheet_path
  let dim_msgs :=
    if sheet.width = 160 ∧ sheet.height = 160 then []
    else [Msg.warnDimensions sheet.width sheet.height]
  let base_name := splitext_base (basename sheet_path)
  let loaded := load_character_names (cwd.txt (splitext_base sheet_path ++ ".txt"))
  let character_names := loaded.1
  let name_msgs :=
    match character_names with
    | some ns => if ns.isEmpty then [Msg.noNamesFile] else [Msg.loadedNames ns.length]
    | none => [Msg.noNamesFile]
  let faces := face_pass sheet base_name character_names
  let portraits := portrait_pass sheet base_name character_names
  let saves := faces ++ portraits
  { msgs := dim_msgs ++ loaded.2 ++ name_msgs ++ saves.map (fun s => Msg.savedFile s.1),
    madeOutputDir := true,
    saves := saves,
    files_to_optimize :=
      if use_optipng then saves.map (fun s => output_dir ++ "/" ++ s.1) else [] }

/-- The sheet-discovery filter in `main`: name starts with `npc-sprites-`
and ends with `.png`, `.webp` or `.jpg`. -/
def is_sheet_file (f : String) : Bool :=
  str_starts_with f "npc-sprites-" &&
    (str_ends_with f ".png" || str_ends_with f ".webp" || str_ends_with f ".jpg")

/-- Everything observable that one `main()` run does. -/
structure MainResult where
  msgs : List Msg
  madeOutputDir : Bool
  saves : List (String × PyImage)

/-- `main()` over the abstract working directory: `argv_out` is the optional
command-line output directory, `optipng_available` the result of
`shutil.which('optipng')`. -/
def main_run (cwd : Cwd) (argv_out : Option String)
    (optipng_available : Bool) : MainResult :=
  let output_dir := "extracted_sprites"
  let sprite_sheets := cwd.listing.filter is_sheet_file
  if sprite_sheets.isEmpty then
    { msgs := [Msg.noSheetsFound, Msg.usage], madeOutputDir := false, saves := [] }
  else
    let output_dir := match argv_out with | some d => d | none => output_dir
    let use_optipng := optipng_available
    let opt_msgs := if use_optipng then [Msg.optipngDetected] else [Msg.optipngMissing]
    let results := (sprite_sheets.mergeSort (fun a b => decide (a ≤ b))).map
      (fun p => extract_sprites_from_sheet cwd p output_dir use_optipng)
    { msgs := opt_msgs ++ [Msg.foundSheets sprite_sheets.length]
        ++ (results.map ExtractResult.msgs).flatten ++ [Msg.allDone],
      madeOutputDir := results.any ExtractResult.madeOutputDir,
      saves := (results.map ExtractResult.saves).flatten }

/-- `subprocess.run(['optipng', ...], check=True, ...)`: with `check=True`
a non-zero exit code raises `CalledProcessError` (`Except.error`); on
success optipng rewrites the file in place, so the set of files on disk is
unchanged. -/
def subprocess_run_optipng (exit_code : Nat) (disk : List String)
    (_file_path : String) : Except Unit (List String) :=
  if exit_code = 0 then Except.ok disk else Except.error ()

/-- `optimize_png_with_optipng`: the `try`/`except CalledProcessError: pass`
wrapper around the subprocess call — a raised error is swallowed and the
disk is left as it was. -/
def optimize_png_with_optipng (exit_code : Nat) (disk : List String)
    (file_path : String) : Except Unit (List String) :=
  match subprocess_run_optipng exit_code disk file_path with
  | Except.ok d => Except.ok d
  | Except.error _ => Except.ok disk

/-- The batch loop `for file_path in files_to_optimize:
optimize_png_with_optipng(file_path)`, with `exit_codes` giving the
external tool's exit code on each file. -/
def optimize_all (exit_codes : String → Nat) (disk : List String) :
    List String → Except Unit (List String)
  | [] => Except.ok disk
  | f :: fs =>
    match optimize_png_with_optipng (exit_codes f) disk f with
    | Except.ok d => optimize_all exit_codes d fs
    | Except.error e => Except.error e

/-- An apostrophe character, for building test names. -/
def apost : Char := Char.ofNat 39

/-- The specification's sanitizer example input, `Bob O'Brien (2)`. -/
def bob_name : String :=
  String.mk ['B', 'o', 'b', ' ', 'O', apost, 'B', 'r', 'i', 'e', 'n', ' ', '(', '2', ')']

/-- A concrete 160x160 sheet whose pixel value encodes its coordinates. -/
def test_sheet : PyImage :=
  { width := 160, height := 160, px := fun i j => 1000 * j + i }

/-- A directory with no file matching the sheet pattern. -/
def test_cwd_empty : Cwd :=
  { listing := ["readme.md", "notes.txt"],
    image := fun _ => default,
    txt := fun _ => none }

/-- A directory whose one sheet has a sidecar name file of blank lines. -/
def test_cwd_blank : Cwd :=
  { listing := ["npc-sprites-page-1.png"],
    image := fun _ => test_sheet,
    txt := fun p => if p = "npc-sprites-page-1.txt" then some ["", "   "] else none }

/-- Twenty distinct test character names. -/
def test_names20 : List String :=
  ["Ann", "Ben", "Cal", "Dee", "Eli", "Fay", "Gus", "Hal", "Ivy", "Jon",
   "Kim", "Lee", "Mia", "Ned", "Ora", "Pam", "Quin", "Rex", "Sue", "Tom"]

/-- Two test character names (fewer than the 20 slots). -/
def test_names2 : List String := ["Ada Lovelace", "Grace Hopper"]

/-! ## Normalization of the two extraction loops -/

/-- Unrolling the face-sprite double loop: the trace visits the five rows in
order and, within each row, the four sub-positions in raster order, with
`character_index` running 0 to 19. -/
theorem face_pass_eq (sheet : PyImage) (b : String) (ns : Option (List String)) :
    face_pass sheet b ns =
      [(face_name b ns 0 0 "1", sheet.crop 0 0 16 16),
       (face_name b ns 1 0 "2", sheet.crop 16 0 32 16),
       (face_name b ns 2 0 "3", sheet.crop 0 16 16 32),
       (face_name b ns 3 0 "4", sheet.crop 16 16 32 32),
       (face_name b ns 4 1 "1", sheet.crop 0 32 16 48),
       (face_name b ns 5 1 "2", sheet.crop 16 32 32 48),
       (face_name b ns 6 1 "3", sheet.crop 0 48 16 64),
       (face_name b ns 7 1 "4", sheet.crop 16 48 32 64),
       (face_name b ns 8 2 "1", sheet.crop 0 64 16 80),
       (face_name b ns 9 2 "2", sheet.crop 16 64 32 80),
       (face_name b ns 10 2 "3", sheet.crop 0 80 16 96),
       (face_name b ns 11 2 "4", sheet.crop 16 80 32 96),
       (face_name b ns 12 3 "1", sheet.crop 0 96 16 112),
       (face_name b ns 13 3 "2", sheet.crop 16 96 32 112),
       (face_name b ns 14 3 "3", sheet.crop 0 112 16 128),
       (face_name b ns 15 3 "4", sheet.crop 16 112 32 128),
       (face_name b ns 16 4 "1", sheet.crop 0 128 16 144),
       (face_name b ns 17 4 "2", sheet.crop 16 128 32 144),
       (face_name b ns 18 4 "3", sheet.crop 0 144 16 160),
       (face_name b ns 19 4 "4", sheet.crop 16 144 32 160)] := by
  simp [face_pass, face_step, sprite_positions]

/-- Unrolling the portrait double loop: rows in order, columns 1 to 4 within
each row, `character_index` running 0 to 19, `sprite_index` equal to the
column. -/
theorem portrait_pass_eq (sheet : PyImage) (b : String) (ns : Option (List String)) :
    portrait_pass sheet b ns =
      [(portrait_name b ns 0 0 1, sheet.crop 32 0 64 32),
       (portrait_name b ns 1 0 2, sheet.crop 64 0 96 32),
       (portrait_name b ns 2 0 3, sheet.crop 96 0 128 32),
       (portrait_name b ns 3 0 4, sheet.crop 128 0 160 32),
       (portrait_name b ns 4 1 1, sheet.crop 32 32 64 64),
       (portrait_name b ns 5 1 2, sheet.crop 64 32 96 64),
       (portrait_name b ns 6 1 3, sheet.crop 96 32 128 64),
       (portrait_name b ns 7 1 4, sheet.crop 128 32 160 64),
       (portrait_name b ns 8 2 1, sheet.crop 32 64 64 96),
       (portrait_name b ns 9 2 2, sheet.crop 64 64 96 96),
       (portrait_name b ns 10 2 3, sheet.crop 96 64 128 96),
       (portrait_name b ns 11 2 4, sheet.crop 128 64 160 96),
       (portrait_name b ns 12 3 1, sheet.crop 32 96 64 128),
       (portrait_name b ns 13 3 2, sheet.crop 64 96 96 128),
       (portrait_name b ns 14 3 3, sheet.crop 96 96 128 128),
       (portrait_name b ns 15 3 4, sheet.crop 128 96 160 128),
       (portrait_name b ns 16 4 1, sheet.crop 32 128 64 160),
       (portrait_name b ns 17 4 2, sheet.crop 64 128 96 160),
       (portrait_name b ns 18 4 3, sheet.crop 96 128 128 160),
       (portrait_name b ns 19 4 4, sheet.crop 128 128 160 160)] := by
  simp [portrait_pass, portrait_step]

/-- The face pass saves exactly 20 files. -/
theorem face_pass_length (sheet : PyImage) (b : String) (ns : Option (List String)) :
    (face_pass sheet b ns).length = 20 := by
  rw [face_pass_eq]
  rfl

/-- The portrait pass saves exactly 20 files. -/
theorem portrait_pass_length (sheet : PyImage) (b : String) (ns : Option (List String)) :
    (portrait_pass sheet b ns).length = 20 := by
  rw [portrait_pass_eq]
  rfl

/-! ## Helper lemmas -/

/-- The guard `character_names and character_index < len(...)` on an actual
list is just the index bound (a list met by the bound is nonempty). -/
theorem names_has_some_eq (ns : List String) (i : Nat) :
    names_has (some ns) i = decide (i < ns.length) := by
  cases ns <;> simp [names_has]

/-- The face filename against an actual name list, with the guard resolved
to the index bound. -/
theorem face_name_some_eq (b : String) (ns : List String) (i row : Nat)
    (num : String) :
    face_name b (some ns) i row num =
      if i < ns.length then sanitize_filename (ns.getD i "") ++ "face.png"
      else b ++ "_row" ++ toString row ++ "_sprite" ++ num ++ ".png" := by
  simp [face_name, names_has_some_eq, name_at]

/-- The portrait filename against an actual name list, with the guard
resolved to the index bound. -/
theorem portrait_name_some_eq (b : String) (ns : List String) (i row s : Nat) :
    portrait_name b (some ns) i row s =
      if i < ns.length then sanitize_filename (ns.getD i "") ++ ".png"
      else b ++ "_row" ++ toString row ++ "_sprite" ++ toString s
        ++ "_portrait.png" := by
  simp [portrait_name, names_has_some_eq, name_at]

/-- An empty name list drives the face filename into the same fallback
branch as an absent name file. -/
theorem face_name_empty_names (b : String) (i row : Nat) (num : String) :
    face_name b (some []) i row num = face_name b none i row num := by
  simp [face_name, names_has]

/-- An empty name list drives the portrait filename into the same fallback
branch as an absent name file. -/
theorem portrait_name_empty_names (b : String) (i row s : Nat) :
    portrait_name b (some []) i row s = portrait_name b none i row s := by
  simp [portrait_name, names_has]

/-- The comprehension `[line.strip() for line in f if line.strip()]` also
reads as: strip every line, then keep the non-empty results. -/
theorem map_py_strip_filter (ls : List String) :
    (ls.filter (fun line => py_strip line ≠ "")).map py_strip =
      (ls.map py_strip).filter (fun s => s ≠ "") := by
  induction ls with
  | nil => rfl
  | cons l tl ih =>
    by_cases h : py_strip l = "" <;>
      · simp [List.filter_cons, h]
        simpa using ih

/-- Characters kept by the sanitizer's filter are never spaces, so the
space-replacement step fixes them. -/
theorem keep_filter_map_fixed (l : List Char) :
    (l.filter keep_char).map space_to_underscore = l.filter keep_char := by
  induction l with
  | nil => rfl
  | cons c cs ih =>
    by_cases h : keep_char c
    · have hne : c ≠ ' ' := by
        intro he
        rw [he] at h
        exact absurd h (by decide)
      simp [List.filter_cons, h, space_to_underscore, hne, ih]
    · simp [List.filter_cons, h, ih]

/-- The optimizer wrapper always returns normally and leaves the disk as it
found it, whatever the external tool's exit code. -/
theorem optimize_png_ok (e : Nat) (disk : List String) (f : String) :
    optimize_png_with_optipng e disk f = Except.ok disk := by
  by_cases he : e = 0 <;>
    simp [optimize_png_with_optipng, subprocess_run_optipng, he]

/-- The optimizer batch loop always returns normally with the disk as it
found it. -/
theorem optimize_all_ok (exit_codes : String → Nat) (disk : List String)
    (files : List String) :
    optimize_all exit_codes disk files = Except.ok disk := by
  induction files generalizing disk with
  | nil => rfl
  | cons f fs ih =>
    simp [optimize_all, optimize_png_ok, ih]

/-! ## Claim theorems -/

/-- C1: for every sheet, the face sprite extracted for row `r` (0..4) at
sub-position `p` (0..3, raster order) is exactly the 16x16 region whose
top-left corner is at `x = 16 * (p % 2)`, `y = r * 32 + 16 * (p / 2)`, and
the portrait extracted for row `r`, column `c` (1..4) is exactly the 32x32
region whose top-left corner is at `(c * 32, r * 32)`. -/
theorem c1_crop_geometry (sheet : PyImage) (b : String)
    (ns : Option (List String)) (r : Nat) (hr : r < 5) :
    (∀ p, p < 4 →
      ((face_pass sheet b ns)[r * 4 + p]?).map Prod.snd =
        some { width := 16, height := 16,
               px := fun i j =>
                 sheet.px (16 * (p % 2) + i) (r * 32 + 16 * (p / 2) + j) }) ∧
    (∀ c, 1 ≤ c → c ≤ 4 →
      ((portrait_pass sheet b ns)[r * 4 + (c - 1)]?).map Prod.snd =
        some { width := 32, height := 32,
               px := fun i j => sheet.px (c * 32 + i) (r * 32 + j) }) := by
  constructor
  · intro p hp
    interval_cases r <;> interval_cases p <;>
      · rw [face_pass_eq]
        simp [PyImage.crop]
  · intro c h1 h4
    interval_cases r <;> interval_cases c <;>
      · rw [portrait_pass_eq]
        simp [PyImage.crop]

/-- Witness for C1 at row 2, face sub-position 3 and portrait column 3 of a
concrete sheet. -/
theorem c1_crop_geometry_witness :
    2 < 5 ∧ 3 < 4 ∧ 1 ≤ 3 ∧ 3 ≤ 4 ∧
    ((face_pass test_sheet "npc-sprites-page-1" none)[2 * 4 + 3]?).map Prod.snd =
      some { width := 16, height := 16,
             px := fun i j =>
               test_sheet.px (16 * (3 % 2) + i) (2 * 32 + 16 * (3 / 2) + j) } ∧
    ((portrait_pass test_sheet "npc-sprites-page-1" none)[2 * 4 + (3 - 1)]?).map Prod.snd =
      some { width := 32, height := 32,
             px := fun i j => test_sheet.px (3 * 32 + i) (2 * 32 + j) } :=
  ⟨by decide, by decide, by decide, by decide,
   (c1_crop_geometry test_sheet "npc-sprites-page-1" none 2 (by decide)).1 3 (by decide),
   (c1_crop_geometry test_sheet "npc-sprites-page-1" none 2 (by decide)).2 3
     (by decide) (by decide)⟩

/-- C4: `sanitize_filename` first replaces each space with an underscore and
then drops every character that is not alphanumeric, an underscore, or a
hyphen (stated as agreement with the independently written `spec_sanitize`);
in particular it maps `Bob O'Brien (2)` to `Bob_OBrien_2`. -/
theorem c4_sanitize_behavior :
    (∀ s : String, sanitize_filename s = spec_sanitize s) ∧
    sanitize_filename bob_name = "Bob_OBrien_2" :=
  ⟨fun _ => rfl, by decide⟩

/-- C10: `sanitize_filename` is idempotent — every character it outputs is
alphanumeric, an underscore, or a hyphen, and such strings are fixed
points. -/
theorem c10_sanitize_idempotent (s : String) :
    sanitize_filename (sanitize_filename s) = sanitize_filename s := by
  unfold sanitize_filename
  show String.mk ((((s.data.map space_to_underscore).filter keep_char).map
      space_to_underscore).filter keep_char) =
    String.mk ((s.data.map space_to_underscore).filter keep_char)
  rw [keep_filter_map_fixed, List.filter_filter]
  simp

/-- C2: with a name list of exactly 20 entries, the Nth name (0-indexed,
N = row*4 + position for faces, N = row*4 + (col-1) for portraits)
determines both the Nth face filename (`{sanitized}face.png`) and the Nth
portrait filename (`{sanitized}.png`), with the same `sanitize_filename`
applied to both, so face and portrait names align 1:1 per character. -/
theorem c2_name_alignment (sheet : PyImage) (b : String) (ns : List String)
    (h20 : ns.length = 20) :
    ∀ N, N < 20 →
      ((face_pass sheet b (some ns))[N]?).map Prod.fst =
        some (sanitize_filename (ns.getD N "") ++ "face.png") ∧
      ((portrait_pass sheet b (some ns))[N]?).map Prod.fst =
        some (sanitize_filename (ns.getD N "") ++ ".png") := by
  intro N hN
  interval_cases N <;>
    · rw [face_pass_eq, portrait_pass_eq]
      simp [face_name_some_eq, portrait_name_some_eq, h20]

/-- Witness for C2 at index 7 of a concrete 20-name list. -/
theorem c2_name_alignment_witness :
    test_names20.length = 20 ∧ 7 < 20 ∧
    (((face_pass test_sheet "npc-sprites-page-1" (some test_names20))[7]?).map Prod.fst =
        some (sanitize_filename (test_names20.getD 7 "") ++ "face.png") ∧
      ((portrait_pass test_sheet "npc-sprites-page-1" (some test_names20))[7]?).map Prod.fst =
        some (sanitize_filename (test_names20.getD 7 "") ++ ".png")) :=
  ⟨by decide, by decide,
   c2_name_alignment test_sheet "npc-sprites-page-1" test_names20 (by decide) 7
     (by decide)⟩

/-- Rendering of the row digit 0. -/
theorem toString_nat_zero : toString (0 : Nat) = "0" := rfl

/-- Rendering of the digit 1. -/
theorem toString_nat_one : toString (1 : Nat) = "1" := rfl

/-- Rendering of the digit 2. -/
theorem toString_nat_two : toString (2 : Nat) = "2" := rfl

/-- Rendering of the digit 3. -/
theorem toString_nat_three : toString (3 : Nat) = "3" := rfl

/-- Rendering of the digit 4. -/
theorem toString_nat_four : toString (4 : Nat) = "4" := rfl

/-- C3: with a name list of fewer than 20 entries, every character index at
or past the list length gets the positional fallback filename
(`{base}_row{row}_sprite{1..4}.png` for faces,
`{base}_row{row}_sprite{1..4}_portrait.png` for portraits, with
`row = N / 4` and sprite number `N % 4 + 1`), and every index strictly
below the list length gets the name-derived filename. -/
theorem c3_name_fallback (sheet : PyImage) (b : String) (ns : List String)
    (hlt : ns.length < 20) :
    ∀ N, N < 20 →
      ((face_pass sheet b (some ns))[N]?).map Prod.fst =
        some (if N < ns.length then sanitize_filename (ns.getD N "") ++ "face.png"
              else b ++ "_row" ++ toString (N / 4) ++ "_sprite"
                ++ toString (N % 4 + 1) ++ ".png") ∧
      ((portrait_pass sheet b (some ns))[N]?).map Prod.fst =
        some (if N < ns.length then sanitize_filename (ns.getD N "") ++ ".png"
              else b ++ "_row" ++ toString (N / 4) ++ "_sprite"
                ++ toString (N % 4 + 1) ++ "_portrait.png") := by
  intro N hN
  interval_cases N <;>
    · rw [face_pass_eq, portrait_pass_eq]
      simp [face_name_some_eq, portrait_name_some_eq, toString_nat_zero,
        toString_nat_one, toString_nat_two, toString_nat_three, toString_nat_four]

/-- Witness for C3 with a 2-name list: index 1 is name-derived, index 10
falls back to the positional scheme. -/
theorem c3_name_fallback_witness :
    test_names2.length < 20 ∧ 1 < 20 ∧ 10 < 20 ∧
    ((face_pass test_sheet "npc-sprites-page-1" (some test_names2))[1]?).map Prod.fst =
      some (if 1 < test_names2.length
            then sanitize_filename (test_names2.getD 1 "") ++ "face.png"
            else "npc-sprites-page-1" ++ "_row" ++ toString (1 / 4) ++ "_sprite"
              ++ toString (1 % 4 + 1) ++ ".png") ∧
    ((portrait_pass test_sheet "npc-sprites-page-1" (some test_names2))[10]?).map Prod.fst =
      some (if 10 < test_names2.length
            then sanitize_filename (test_names2.getD 10 "") ++ ".png"
            else "npc-sprites-page-1" ++ "_row" ++ toString (10 / 4) ++ "_sprite"
              ++ toString (10 % 4 + 1) ++ "_portrait.png") :=
  ⟨by decide, by decide, by decide,
   (c3_name_fallback test_sheet "npc-sprites-page-1" test_names2 (by decide) 1
     (by decide)).1,
   (c3_name_fallback test_sheet "npc-sprites-page-1" test_names2 (by decide) 10
     (by decide)).2⟩

/-- C5: a sheet processed without the optimizer produces exactly 40 saved
output files — the 20 face-pass files followed by the 20 portrait-pass
files — and hands nothing to the optimizer. -/
theorem c5_forty_outputs (cwd : Cwd) (sheet_path output_dir : String) :
    (extract_sprites_from_sheet cwd sheet_path output_dir false).saves =
      face_pass (cwd.image sheet_path) (splitext_base (basename sheet_path))
          (load_character_names (cwd.txt (splitext_base sheet_path ++ ".txt"))).1 ++
        portrait_pass (cwd.image sheet_path) (splitext_base (basename sheet_path))
          (load_character_names (cwd.txt (splitext_base sheet_path ++ ".txt"))).1 ∧
    (extract_sprites_from_sheet cwd sheet_path output_dir false).saves.length = 40 ∧
    (face_pass (cwd.image sheet_path) (splitext_base (basename sheet_path))
        (load_character_names (cwd.txt (splitext_base sheet_path ++ ".txt"))).1).length
      = 20 ∧
    (portrait_pass (cwd.image sheet_path) (splitext_base (basename sheet_path))
        (load_character_names (cwd.txt (splitext_base sheet_path ++ ".txt"))).1).length
      = 20 ∧
    (extract_sprites_from_sheet cwd sheet_path output_dir false).files_to_optimize
      = [] := by
  refine ⟨rfl, ?_, face_pass_length _ _ _, portrait_pass_length _ _ _, rfl⟩
  show (face_pass (cwd.image sheet_path) (splitext_base (basename sheet_path))
      (load_character_names (cwd.txt (splitext_base sheet_path ++ ".txt"))).1 ++
    portrait_pass (cwd.image sheet_path) (splitext_base (basename sheet_path))
      (load_character_names (cwd.txt (splitext_base sheet_path ++ ".txt"))).1).length
    = 40
  rw [List.length_append, face_pass_length, portrait_pass_length]

/-- C6: when no file in the working directory matches the sheet pattern,
`main` prints the informational messages and returns without creating the
output directory and without saving any file. -/
theorem c6_no_sheets_early_return (cwd : Cwd) (argv_out : Option String)
    (optipng_available : Bool)
    (h : cwd.listing.filter is_sheet_file = []) :
    main_run cwd argv_out optipng_available =
      { msgs := [Msg.noSheetsFound, Msg.usage], madeOutputDir := false,
        saves := [] } := by
  simp [main_run, h]

/-- Witness for C6 on a concrete directory with no matching file. -/
theorem c6_no_sheets_early_return_witness :
    test_cwd_empty.listing.filter is_sheet_file = [] ∧
    main_run test_cwd_empty none true =
      { msgs := [Msg.noSheetsFound, Msg.usage], madeOutputDir := false,
        saves := [] } :=
  ⟨by decide, c6_no_sheets_early_return test_cwd_empty none true (by decide)⟩

/-- C7: `load_character_names` returns `none` when the sidecar file is
absent; when the file is present it returns exactly the non-empty stripped
lines in file order — no padding, no truncation — and warns exactly when
that count differs from 20. -/
theorem c7_load_names_behavior :
    load_character_names none = (none, []) ∧
    ∀ ls : List String,
      (load_character_names (some ls)).1 =
        some ((ls.map py_strip).filter (fun s => s ≠ "")) ∧
      ((load_character_names (some ls)).2 ≠ [] ↔
        ((ls.map py_strip).filter (fun s => s ≠ "")).length ≠ 20) := by
  refine ⟨rfl, fun ls => ⟨?_, ?_⟩⟩
  · simp only [load_character_names, map_py_strip_filter]
  · simp only [load_character_names]
    rw [map_py_strip_filter]
    by_cases h : ((ls.map py_strip).filter (fun s => s ≠ "")).length = 20 <;>
      simp [h]

/-- C8: a non-zero exit status from the external optipng invocation is
caught and ignored — the wrapper always returns normally with the disk as
it found it — and the batch loop over any file list likewise returns
normally with every already-saved file still on disk. -/
theorem c8_optipng_failure_ignored (exit_codes : String → Nat)
    (disk files : List String) (file : String) (hmem : file ∈ disk) :
    (∀ e d f, optimize_png_with_optipng e d f = Except.ok d) ∧
    ∃ d, optimize_all exit_codes disk files = Except.ok d ∧ file ∈ d :=
  ⟨optimize_png_ok, disk, optimize_all_ok exit_codes disk files, hmem⟩

/-- Witness for C8: every optipng invocation fails (exit code 1) and the
saved file is still on disk afterwards. -/
theorem c8_optipng_failure_ignored_witness :
    "a.png" ∈ ["a.png", "b.png"] ∧
    ((∀ e d f, optimize_png_with_optipng e d f = Except.ok d) ∧
     ∃ d, optimize_all (fun _ => 1) ["a.png", "b.png"] ["a.png", "b.png"] =
       Except.ok d ∧ "a.png" ∈ d) :=
  ⟨by decide,
   c8_optipng_failure_ignored (fun _ => 1) ["a.png", "b.png"]
     ["a.png", "b.png"] "a.png" (by decide)⟩

/-- An empty name list makes the whole face pass coincide with the
no-name-file run. -/
theorem face_pass_empty_names (sheet : PyImage) (b : String) :
    face_pass sheet b (some []) = face_pass sheet b none := by
  rw [face_pass_eq, face_pass_eq]
  simp [face_name_empty_names]

/-- An empty name list makes the whole portrait pass coincide with the
no-name-file run. -/
theorem portrait_pass_empty_names (sheet : PyImage) (b : String) :
    portrait_pass sheet b (some []) = portrait_pass sheet b none := by
  rw [portrait_pass_eq, portrait_pass_eq]
  simp [portrait_name_empty_names]

/-- Any warning printed by the name loader appears among the extractor's
printed messages. -/
theorem extract_msgs_contains_load (cwd : Cwd) (sheet_path output_dir : String)
    (u : Bool) (m : Msg)
    (hm : m ∈ (load_character_names
      (cwd.txt (splitext_base sheet_path ++ ".txt"))).2) :
    m ∈ (extract_sprites_from_sheet cwd sheet_path output_dir u).msgs := by
  simp only [extract_sprites_from_sheet, List.mem_append]
  exact Or.inl (Or.inl (Or.inr hm))

/-- C9: when the sidecar name file exists but all its lines are blank,
`load_character_names` returns the empty list and warns about 0 names, and
the extractor saves exactly the files it would save if no name file
existed (the empty list is falsy in every name-using branch), with the
0-name count-mismatch warning still among the printed messages. -/
theorem c9_blank_name_file (cwd : Cwd) (sheet_path output_dir : String)
    (u : Bool) (ls : List String)
    (hfile : cwd.txt (splitext_base sheet_path ++ ".txt") = some ls)
    (hblank : ∀ l ∈ ls, py_strip l = "") :
    load_character_names (some ls) = (some [], [Msg.warnNameCount 0]) ∧
    (extract_sprites_from_sheet cwd sheet_path output_dir u).saves =
      (extract_sprites_from_sheet { cwd with txt := fun _ => none }
        sheet_path output_dir u).saves ∧
    Msg.warnNameCount 0 ∈
      (extract_sprites_from_sheet cwd sheet_path output_dir u).msgs := by
  have hnil : ls.filter (fun line => py_strip line ≠ "") = [] := by
    rw [List.filter_eq_nil_iff]
    intro a ha
    simp [hblank a ha]
  have hload : load_character_names (some ls) = (some [], [Msg.warnNameCount 0]) := by
    simp only [load_character_names]
    rw [hnil]
    simp
  refine ⟨hload, ?_, ?_⟩
  · show face_pass (cwd.image sheet_path) (splitext_base (basename sheet_path))
        (load_character_names (cwd.txt (splitext_base sheet_path ++ ".txt"))).1 ++
      portrait_pass (cwd.image sheet_path) (splitext_base (basename sheet_path))
        (load_character_names (cwd.txt (splitext_base sheet_path ++ ".txt"))).1 =
      face_pass (cwd.image sheet_path) (splitext_base (basename sheet_path)) none ++
      portrait_pass (cwd.image sheet_path) (splitext_base (basename sheet_path)) none
    rw [hfile, hload]
    show face_pass (cwd.image sheet_path) (splitext_base (basename sheet_path))
        (some []) ++
      portrait_pass (cwd.image sheet_path) (splitext_base (basename sheet_path))
        (some []) = _
    rw [face_pass_empty_names, portrait_pass_empty_names]
  · refine extract_msgs_contains_load cwd sheet_path output_dir u _ ?_
    rw [hfile, hload]
    simp

/-- Witness for C9 on a concrete directory whose sidecar file holds one
empty and one whitespace-only line. -/
theorem c9_blank_name_file_witness :
    test_cwd_blank.txt (splitext_base "npc-sprites-page-1.png" ++ ".txt") =
      some ["", "   "] ∧
    (∀ l ∈ (["", "   "] : List String), py_strip l = "") ∧
    (load_character_names (some ["", "   "]) =
        (some [], [Msg.warnNameCount 0]) ∧
      (extract_sprites_from_sheet test_cwd_blank "npc-sprites-page-1.png"
          "extracted_sprites" false).saves =
        (extract_sprites_from_sheet { test_cwd_blank with txt := fun _ => none }
          "npc-sprites-page-1.png" "extracted_sprites" false).saves ∧
      Msg.warnNameCount 0 ∈
        (extract_sprites_from_sheet test_cwd_blank "npc-sprites-page-1.png"
          "extracted_sprites" false).msgs) :=
  ⟨by decide, by decide,
   c9_blank_name_file test_cwd_blank "npc-sprites-page-1.png"
     "extracted_sprites" false ["", "   "] (by decide) (by decide)⟩
